import Mathlib

/-!
Verification of the ladybug annual irradiance engine.

Shallow embedding of `ladybug/wea.py` (class `Wea`), the JSON handling of
`ladybug/header.py` (`Header.from_json`) and the unit conversions of
`ladybug/types/temperature.py` (class `Temperature`), with theorems settling
the specification claims about them.

Modelling conventions:
* Numeric values (Python floats and ints) are modelled as rationals (`ℚ`);
  every IEEE float is a rational number and the code performs only field
  operations on them, except where trigonometry enters, which is modelled
  over `ℝ`.
* `DateTime` objects (collaborator `ladybug/dt.py`, outside the verified
  sources) are identified with the minute-of-year value that
  `DateTime.from_moy` is constructed from; `add_minute(30)` is `+ 30`.
* External collaborators (the EPW parser, the sun-path provider, the sky
  model functions of `skymodel.py`, the interpolation routine of the series
  container) are taken as parameters of the construction paths, so the
  theorems quantify over every possible collaborator behaviour.
* Python `assert` failures and raised exceptions are modelled by `Except`:
  a construction path returns `.error e` exactly when the Python code
  raises.
-/

/-- the number of hours in the annual file: `Wea.hr_count`,
`8760 + 24 if is_leap_year else 8760`. -/
def hrCount (is_leap_year : Bool) : Nat :=
  if is_leap_year then 8760 + 24 else 8760

/-- ladybug `Location` (collaborator value object): the fields the engine
reads and writes. -/
structure Location where
  city : String
  latitude : ℚ
  longitude : ℚ
  time_zone : ℚ
  elevation : ℚ
deriving DecidableEq

/-- one sample of a series: a numeric value paired with its datetime
(identified with its minute of year). -/
structure DataPoint where
  value : ℚ
  dt : ℚ
deriving DecidableEq

/-- Modelled from the spec: the Series collaborator (`DataCollection`,
defined in `ladybug/datacollection.py` which is not among the verified
sources) is an ordered sequence of timestamped numeric samples; spec
section 3. Its header metadata plays no role in the claims and is
omitted. -/
structure DataCollection where
  values : List DataPoint
deriving DecidableEq

/-- the annual WEA engine: the attributes `Wea.__init__` stores. Python can
store `None` for `is_leap_year` (it is then falsy in every consumer inside
`wea.py`), so `None` is conflated with `false`. -/
structure Wea where
  location : Location
  direct_normal_irradiance : DataCollection
  diffuse_horizontal_irradiance : DataCollection
  timestep : Nat
  is_leap_year : Bool
deriving DecidableEq

/-- errors raised by the engine, kept structured. `annualLength` carries the
data interpolated into the `from_values` message `For timestep %d, %d number
of data for %s is expected. %d is provided.` together with the optional
`Did you forget to set the timestep to %d?` suggestion. -/
inductive WeaError
  | annualLength (timestep expected : Nat) (series : String) (provided : Nat)
      (suggestion : Option Nat)
  | assertionError (msg : String)
deriving DecidableEq

/-- the length validation used by the two irradiance setters:
`len(data) / self.timestep == self.hr_count(self.is_leap_year)` with true
division (`from __future__ import division`). -/
def annualCheck (n timestep : Nat) (is_leap_year : Bool) : Prop :=
  (n : ℚ) / (timestep : ℚ) = (hrCount is_leap_year : ℚ)

instance (n t : Nat) (b : Bool) : Decidable (annualCheck n t b) := by
  unfold annualCheck; infer_instance

/-- the `Wea.direct_normal_irradiance` setter: validates the annual length,
else the assertion fails. -/
def setDirectNormal (w : Wea) (data : DataCollection) : Except WeaError Wea :=
  if annualCheck data.values.length w.timestep w.is_leap_year then
    .ok { w with direct_normal_irradiance := data }
  else
    .error (.assertionError "direct_normal_irradiance data must be annual.")

/-- the `Wea.diffuse_horizontal_irradiance` setter. -/
def setDiffuseHorizontal (w : Wea) (data : DataCollection) :
    Except WeaError Wea :=
  if annualCheck data.values.length w.timestep w.is_leap_year then
    .ok { w with diffuse_horizontal_irradiance := data }
  else
    .error (.assertionError "diffuse_horizontal_irradiance data must be annual.")

/-- the effect of `timestep = timestep or 1` in `Wea.__init__`: `None` and
`0` both become `1`. -/
def initTimestep : Option Nat → Nat
  | none => 1
  | some 0 => 1
  | some t => t

/-- `Wea.__init__`: stores the timestep and leap-year flag, then assigns
both collections through their validating setters (the first failing setter
aborts construction). -/
def Wea.init (location : Location) (dni dhi : DataCollection)
    (timestep : Option Nat) (is_leap_year : Option Bool) :
    Except WeaError Wea :=
  let w0 : Wea := ⟨location, dni, dhi, initTimestep timestep,
    is_leap_year.getD false⟩
  do
    let w1 ← setDirectNormal w0 dni
    setDiffuseHorizontal w1 dhi

/-- both series of the engine have length exactly
`timestep * hr_count(is_leap_year)`. -/
def Wea.lengthsOk (w : Wea) : Prop :=
  w.direct_normal_irradiance.values.length =
      w.timestep * hrCount w.is_leap_year ∧
  w.diffuse_horizontal_irradiance.values.length =
      w.timestep * hrCount w.is_leap_year

instance : DecidablePred Wea.lengthsOk := by
  intro w; unfold Wea.lengthsOk; infer_instance

/-- `Wea._get_datetimes`: minute-of-year stamps at `60/timestep` minute
intervals across the year, offset by 30 minutes when `timestep == 1`
(`DateTime.from_moy` is identified with its minute-of-year argument). -/
def getDatetimes (timestep : Nat) (is_leap_year : Bool) : List ℚ :=
  (List.range (hrCount is_leap_year * timestep)).map
    (fun count : Nat => 60 * (count : ℚ) / (timestep : ℚ) +
      (if timestep = 1 then 30 else 0))

/-- `Wea.from_values`: validates both input lengths (building the error data
with the timestep suggestion added exactly when the direct list length is a
multiple of `hr_count`; both messages report the direct list length), then
pairs the values with the generated datetimes (`zip` truncates to the
shortest) and finishes through `Wea.__init__`. -/
def fromValues (location : Location) (dni dhi : List ℚ)
    (timestep : Nat) (is_leap_year : Bool) : Except WeaError Wea :=
  let suggestion : Option Nat :=
    if dni.length % hrCount is_leap_year = 0 then
      some (dni.length / hrCount is_leap_year)
    else none
  if annualCheck dni.length timestep is_leap_year then
    if annualCheck dhi.length timestep is_leap_year then
      let dts := getDatetimes timestep is_leap_year
      let triples := dni.zip (dhi.zip dts)
      Wea.init location
        ⟨triples.map (fun p => DataPoint.mk p.1 p.2.2)⟩
        ⟨triples.map (fun p => DataPoint.mk p.2.1 p.2.2)⟩
        (some timestep) (some is_leap_year)
    else
      .error (.annualLength timestep (timestep * hrCount is_leap_year)
        "diffuse_horizontal_irradiance" dni.length suggestion)
  else
    .error (.annualLength timestep (timestep * hrCount is_leap_year)
      "direct normal irradiance" dni.length suggestion)

/-- `Wea.from_file` after the five header lines have produced a `Location`
and each data line has been reduced to its two trailing integers (file
reading is external I/O): it delegates to `from_values`. -/
def fromFile (location : Location) (rows : List (Int × Int))
    (timestep : Nat) (is_leap_year : Bool) : Except WeaError Wea :=
  fromValues location (rows.map (fun r => (r.1 : ℚ)))
    (rows.map (fun r => (r.2 : ℚ))) timestep is_leap_year

/-- `Wea.from_epw_file`. The EPW collections, the linear-interpolation
routine and the sun-path provider (`altitude` in degrees as a function of
the sample datetime) are external collaborators, taken as parameters. With
`timestep == 1` the hourly samples are shifted to the half hour; otherwise
each interpolated sample is replaced by a zero sample whenever the sun
altitude at the beam sample datetime is not positive. The leap-year flag is
always false on this path. -/
def fromEpwFile (location : Location) (epwDni epwDhi : DataCollection)
    (interp : DataCollection → Nat → List DataPoint)
    (sunAltitude : ℚ → ℚ) (timestep : Nat) : Except WeaError Wea :=
  if timestep ≠ 1 then
    let beams := interp epwDni timestep
    let diffs := interp epwDhi timestep
    let pairs := beams.zip diffs
    Wea.init location
      ⟨pairs.map (fun p =>
        if sunAltitude p.1.dt > 0 then p.1 else ⟨0, p.1.dt⟩)⟩
      ⟨pairs.map (fun p =>
        if sunAltitude p.1.dt > 0 then p.2 else ⟨0, p.2.dt⟩)⟩
      (some timestep) (some false)
  else
    Wea.init location
      ⟨epwDni.values.map (fun p => ⟨p.value, p.dt + 30⟩)⟩
      ⟨epwDhi.values.map (fun p => ⟨p.value, p.dt + 30⟩)⟩
      (some timestep) (some false)

/-- the altitude bucketing shared by the two ASHRAE paths: for each month
`m+1` (the provider is assumed to report months in `1..12`, as a calendar
does), the sun altitudes of the year datetimes whose sun falls in that
month, in chronological order. -/
def monthlyAltitudes (sunAltitude : ℚ → ℚ) (sunMonth : ℚ → Nat)
    (timestep : Nat) (is_leap_year : Bool) : List (List ℚ) :=
  (List.range 12).map (fun m =>
    ((getDatetimes timestep is_leap_year).filter
      (fun d => sunMonth d = m + 1)).map sunAltitude)

/-- `Wea.from_ashrae_revised_clear_sky`: buckets the sun altitudes by month,
runs the external `ashrae_revised_clear_sky` model per month with that
month's optical depths, then re-attaches the chronological datetimes to the
month-ordered outputs by a running counter (in the code `dates[i_dt]`,
which is a `zip` with the datetime list) and finishes through
`Wea.__init__`. -/
def fromAshraeRevisedClearSky (location : Location)
    (monthly_tau_beam monthly_tau_diffuse : List ℚ)
    (model : List ℚ → ℚ → ℚ → List ℚ × List ℚ)
    (sunAltitude : ℚ → ℚ) (sunMonth : ℚ → Nat)
    (timestep : Nat) (is_leap_year : Bool) : Except WeaError Wea :=
  let dates := getDatetimes timestep is_leap_year
  let buckets := monthlyAltitudes sunAltitude sunMonth timestep is_leap_year
  let pairs := ((List.range 12).map (fun m =>
    let r := model (buckets.getD m []) (monthly_tau_beam.getD m 0)
      (monthly_tau_diffuse.getD m 0)
    r.1.zip r.2)).flatten
  Wea.init location
    ⟨(pairs.zip dates).map (fun p => DataPoint.mk p.1.1 p.2)⟩
    ⟨(pairs.zip dates).map (fun p => DataPoint.mk p.1.2 p.2)⟩
    (some timestep) (some is_leap_year)

/-- `Wea.from_ashrae_clear_sky`: same bucketing, but the external
`ashrae_clear_sky` model takes the month number and the uniform clearness
multiplier instead of per-month optical depths. -/
def fromAshraeClearSky (location : Location) (sky_clearness : ℚ)
    (model : List ℚ → Nat → ℚ → List ℚ × List ℚ)
    (sunAltitude : ℚ → ℚ) (sunMonth : ℚ → Nat)
    (timestep : Nat) (is_leap_year : Bool) : Except WeaError Wea :=
  let dates := getDatetimes timestep is_leap_year
  let buckets := monthlyAltitudes sunAltitude sunMonth timestep is_leap_year
  let pairs := ((List.range 12).map (fun m =>
    let r := model (buckets.getD m []) (m + 1) sky_clearness
    r.1.zip r.2)).flatten
  Wea.init location
    ⟨(pairs.zip dates).map (fun p => DataPoint.mk p.1.1 p.2)⟩
    ⟨(pairs.zip dates).map (fun p => DataPoint.mk p.1.2 p.2)⟩
    (some timestep) (some is_leap_year)

/-- `check_missing` inside `Wea.from_stat_file`: empty optical data or a
`None` entry raises `ValueError` (the first missing month is named). -/
def checkMissing (opt_data : List (Option ℚ)) (data_name : String) :
    Except WeaError Unit :=
  if opt_data = [] then
    .error (.assertionError "Stat file contains no optical data.")
  else
    match opt_data.findIdx? (fun x => x.isNone) with
    | some i => .error (.assertionError
        ("Missing optical depth data for " ++ data_name ++ " at month " ++
          toString i))
    | none => .ok ()

/-- `Wea.from_stat_file` after the `.stat` file has been parsed into its
location and two monthly optical-depth lists (parsing is external): checks
the beam depths, then the diffuse depths, then delegates to the
revised-clear-sky path. -/
def fromStatFile (location : Location)
    (monthly_tau_beam monthly_tau_diffuse : List (Option ℚ))
    (model : List ℚ → ℚ → ℚ → List ℚ × List ℚ)
    (sunAltitude : ℚ → ℚ) (sunMonth : ℚ → Nat)
    (timestep : Nat) (is_leap_year : Bool) : Except WeaError Wea := do
  checkMissing monthly_tau_beam "monthly_tau_beam"
  checkMissing monthly_tau_diffuse "monthly_tau_diffuse"
  fromAshraeRevisedClearSky location
    (monthly_tau_beam.map (fun x => x.getD 0))
    (monthly_tau_diffuse.map (fun x => x.getD 0))
    model sunAltitude sunMonth timestep is_leap_year

/-- Python list indexing, as exercised by `from_zhang_huang_solar` and
`get_irradiance_values_for_hoy`: a negative index counts from the end of
the list; an index out of range on either side is `IndexError` (`none`). -/
def pyListGet {α : Type} (l : List α) (i : Int) : Option α :=
  if 0 ≤ i then l.get? i.toNat
  else if 0 ≤ i + l.length then l.get? (i + l.length).toNat
  else none

/-- the `dry_bulb_t3_hrs` list of `Wea.from_zhang_huang_solar`:
`dry_bulb_temperature[count - (3 * timestep)]` for each of the year's `n`
sample counts, with Python indexing semantics. On the real path the index
is always in range (`3 * timestep ≤ len`), so the `getD` default is never
consulted. -/
def zhDryBulbT3 (dry_bulb_temperature : List ℚ) (timestep n : Nat) :
    List ℚ :=
  (List.range n).map (fun count : Nat =>
    (pyListGet dry_bulb_temperature
      ((count : Int) - 3 * (timestep : Int))).getD 0)

/-- `Wea.from_zhang_huang_solar`: validates the climate inputs, gathers per
timestep the sun altitude, the day of year and the dry-bulb temperature
three hours earlier, feeds everything to the external
`zhang_huang_solar_split` regression, and assembles the result through
`Wea.__init__`. -/
def fromZhangHuangSolar (location : Location)
    (cloud_cover relative_humidity dry_bulb_temperature wind_speed : List ℚ)
    (atmospheric_pressure : Option (List ℚ))
    (split : List ℚ → List Nat → List ℚ → List ℚ → List ℚ → List ℚ →
      List ℚ → List ℚ → Bool → List ℚ × List ℚ)
    (sunAltitude : ℚ → ℚ) (sunDoy : ℚ → Nat)
    (timestep : Nat) (is_leap_year : Bool) (use_disc : Bool) :
    Except WeaError Wea :=
  if ¬ (cloud_cover.length = relative_humidity.length ∧
        relative_humidity.length = dry_bulb_temperature.length ∧
        dry_bulb_temperature.length = wind_speed.length) then
    .error (.assertionError "lengths of input climate data must match.")
  else if ¬ annualCheck cloud_cover.length timestep is_leap_year then
    .error (.assertionError "input climate data must be annual.")
  else if ¬ (∀ l ∈ atmospheric_pressure, l.length = cloud_cover.length) then
    .error (.assertionError
      "length pf atmospheric_pressure must match the other input lists.")
  else
    let ap := match atmospheric_pressure with
      | some l => l
      | none => List.replicate (hrCount is_leap_year * timestep) 101325
    let dates := getDatetimes timestep is_leap_year
    let altitudes := dates.map sunAltitude
    let doys := dates.map sunDoy
    let t3 := zhDryBulbT3 dry_bulb_temperature timestep dates.length
    let r := split altitudes doys cloud_cover relative_humidity
      dry_bulb_temperature t3 wind_speed ap use_disc
    Wea.init location
      ⟨((r.1.zip r.2).zip dates).map (fun p => DataPoint.mk p.1.1 p.2)⟩
      ⟨((r.1.zip r.2).zip dates).map (fun p => DataPoint.mk p.1.2 p.2)⟩
      (some timestep) (some is_leap_year)

/-- the structured (JSON-like) representation of an engine. The collaborator
representations round-trip exactly per spec section 6, so the Location and
Series payloads are modelled by the objects themselves; every key is an
`Option` so that the required-key presence check and absent optional keys of
`from_json` are expressible (`none` = key absent or `null`). -/
structure WeaJson where
  location : Option Location
  direct_normal_irradiance : Option DataCollection
  diffuse_horizontal_irradiance : Option DataCollection
  timestep : Option Nat
  is_leap_year : Option Bool
deriving DecidableEq

/-- `Wea.to_json`: emits all five keys. -/
def Wea.toJson (w : Wea) : WeaJson :=
  ⟨some w.location, some w.direct_normal_irradiance,
    some w.diffuse_horizontal_irradiance, some w.timestep,
    some w.is_leap_year⟩

/-- `Wea.from_json`: asserts the three required keys are present, treats
missing optional keys as `None` (the insertion of those keys into the
caller's dictionary is modelled separately by `weaFromJsonDictEffect`), and
builds the engine through `Wea.__init__`. -/
def Wea.fromJson (data : WeaJson) : Except WeaError Wea :=
  match data.location, data.direct_normal_irradiance,
      data.diffuse_horizontal_irradiance with
  | some loc, some dni, some dhi =>
      Wea.init loc dni dhi data.timestep data.is_leap_year
  | _, _, _ => .error (.assertionError "Required key is missing!")

/-- a Python dictionary for the untyped `from_json` input: an insertion
ordered association list; an entry value `none` is Python `None` (distinct
from the key being absent). -/
abbrev PyDict (α : Type) := List (String × Option α)

/-- Python `key in data`. -/
def pyDictContains {α : Type} (d : PyDict α) (k : String) : Bool :=
  d.any (fun e => e.1 == k)

/-- Python `data[key]` as a lookup: `some v` when the key is present with
value `v`, `none` when absent. -/
def pyDictLookup {α : Type} (d : PyDict α) (k : String) :
    Option (Option α) :=
  (d.find? (fun e => e.1 == k)).map (fun e => e.2)

/-- Python `data[key] = value`: replaces the value of an existing key,
otherwise appends the new key in insertion order. -/
def pyDictSet {α : Type} (d : PyDict α) (k : String) (v : Option α) :
    PyDict α :=
  if pyDictContains d k then
    d.map (fun e => if e.1 == k then (k, v) else e)
  else d ++ [(k, v)]

/-- the loop `for key in keys: if key not in data: data[key] = None`
shared by `Wea.from_json` and `Header.from_json`. -/
def insertNoneDefaults {α : Type} (keys : List String) (d : PyDict α) :
    PyDict α :=
  keys.foldl (fun dd k => if pyDictContains dd k then dd
    else pyDictSet dd k none) d

/-- the required keys of `Wea.from_json`. -/
def requiredWeaKeys : List String :=
  ["location", "direct_normal_irradiance", "diffuse_horizontal_irradiance"]

/-- the optional keys of `Wea.from_json`. -/
def optionalWeaKeys : List String := ["timestep", "is_leap_year"]

/-- the keys defaulted by `Header.from_json`. -/
def headerJsonKeys : List String :=
  ["data_type", "unit", "analysis_period", "metadata"]

/-- the effect of `Wea.from_json` on the dictionary passed by the caller:
after the required keys are asserted present, each absent optional key is
inserted with value `None` into that same dictionary. -/
def weaFromJsonDictEffect {α : Type} (d : PyDict α) :
    Except WeaError (PyDict α) :=
  if requiredWeaKeys.all (fun k => pyDictContains d k) then
    .ok (insertNoneDefaults optionalWeaKeys d)
  else .error (.assertionError "Required key is missing!")

/-- the effect of `Header.from_json` (`ladybug/header.py`) on the
dictionary passed by the caller: every absent key among its four keys is
inserted with value `None`; there is no required-key check. -/
def headerFromJsonDictEffect {α : Type} (d : PyDict α) : PyDict α :=
  insertNoneDefaults headerJsonKeys d

/-- `Temperature._C_to_F`: `value * 9. / 5. + 32.`. -/
def tempCtoF (value : ℚ) : ℚ := value * 9 / 5 + 32

/-- `Temperature._C_to_K`: `value + 273.15`. -/
def tempCtoK (value : ℚ) : ℚ := value + 27315 / 100

/-- `Temperature._F_to_C`: `(value - 32.) * 5. / 9.`. -/
def tempFtoC (value : ℚ) : ℚ := (value - 32) * 5 / 9

/-- `Temperature._K_to_C`: `value - 273.15`. -/
def tempKtoC (value : ℚ) : ℚ := value - 27315 / 100

/-- the conversion into the base unit `C` from a legal unit. -/
def tempToC : String → Option (ℚ → ℚ)
  | "C" => some id
  | "F" => some tempFtoC
  | "K" => some tempKtoC
  | _ => none

/-- the conversion out of the base unit `C` into a legal unit. -/
def tempFromC : String → Option (ℚ → ℚ)
  | "C" => some id
  | "F" => some tempCtoF
  | "K" => some tempCtoK
  | _ => none

/-- `Temperature.to_unit(values, unit, from_unit)`, which the source
delegates to `self._to_unit_base('C', values, unit, from_unit)`.
Modelled from the spec for the `_to_unit_base` part (defined in
`ladybug/datatype/_base.py`, not among the verified sources): each value is
converted from `from_unit` to the base unit `C` and then to the target
`unit` with the quantity's conversion methods above; an illegal unit on
either side fails with `UnsupportedUnitError` (spec section 4.1). -/
def temperatureToUnit (values : List ℚ) (unit from_unit : String) :
    Except String (List ℚ) :=
  match tempToC from_unit, tempFromC unit with
  | some f, some g => .ok (values.map (fun v => g (f v)))
  | _, _ => .error "UnsupportedUnitError"

/-- Python `int(q)`: truncation toward zero. -/
def pyInt (q : ℚ) : Int := if 0 ≤ q then ⌊q⌋ else ⌈q⌉

/-- `Wea.get_irradiance_values_for_hoy`: `count = int(hoy * timestep)`,
then Python indexing into both collections (`none` = `IndexError`). -/
def getIrradianceValuesForHoy (w : Wea) (hoy : ℚ) :
    Option (DataPoint × DataPoint) :=
  let count := pyInt (hoy * (w.timestep : ℚ))
  match pyListGet w.direct_normal_irradiance.values count,
      pyListGet w.diffuse_horizontal_irradiance.values count with
  | some a, some b => some (a, b)
  | _, _ => none

/-- one data line of the `.wea` body, reduced to the data it prints:
the sample datetime (whose month, day and decimal hour the line shows) and
the direct and diffuse values. -/
abbrev WeaLine := ℚ × ℚ × ℚ

/-- the subset-mode loop of `Wea.write`: an hour of year with no sample is
skipped, printing a warning that interpolates the Python variable `dt`; when
no earlier hour in the loop has succeeded, that variable is unbound and the
loop dies with a `NameError` instead. The second component is the warning
log, recording the `dt` each warning printed. -/
def writeSubsetLoop (w : Wea) :
    List ℚ → Option ℚ → Except String (List WeaLine × List ℚ)
  | [], _ => .ok ([], [])
  | hoy :: rest, lastDt =>
    match getIrradianceValuesForHoy w hoy with
    | some (a, b) =>
      (writeSubsetLoop w rest (some a.dt)).map
        (fun r => ((a.dt, a.value, b.value) :: r.1, r.2))
    | none =>
      match lastDt with
      | none => .error "NameError: name dt is not defined"
      | some d =>
        (writeSubsetLoop w rest (some d)).map (fun r => (r.1, d :: r.2))

/-- the body lines `Wea.write` produces (the header rendering and the file
I/O itself are external): full annual dump when `hoys` is `None` or empty,
otherwise the subset loop over the requested hours of year. Returns the
produced lines together with the warning log. -/
def weaWriteLines (w : Wea) (hoys : Option (List ℚ)) :
    Except String (List WeaLine × List ℚ) :=
  match hoys with
  | some (h :: rest) => writeSubsetLoop w (h :: rest) none
  | _ =>
    .ok ((w.direct_normal_irradiance.values.zip
      w.diffuse_horizontal_irradiance.values).map
        (fun p => (p.1.dt, p.1.value, p.2.value)), [])

noncomputable section

/-- Python `math.radians`. -/
def rad (x : ℝ) : ℝ := x * Real.pi / 180

/-- the helper `pol2cart` of `Wea.directional_irradiance`: polar
(azimuth `phi`, altitude `theta`) to a 3-vector `(x, y, z)`. -/
def pol2cart (phi theta : ℝ) : ℝ × ℝ × ℝ :=
  (Real.sin phi * Real.cos theta, Real.cos phi * Real.cos theta,
    Real.sin theta)

/-- Modelled from the spec: the euclid `Vector3.angle` collaborator
(`ladybug/euclid.py`, generic 3-D vector arithmetic, outside the verified
sources) — the angle between the two vectors,
`acos(dot(u, v) / (|u| * |v|))`. -/
def vecAngle (u v : ℝ × ℝ × ℝ) : ℝ :=
  Real.arccos ((u.1 * v.1 + u.2.1 * v.2.1 + u.2.2 * v.2.2) /
    (Real.sqrt (u.1 ^ 2 + u.2.1 ^ 2 + u.2.2 ^ 2) *
      Real.sqrt (v.1 ^ 2 + v.2.1 ^ 2 + v.2.2 ^ 2)))

/-- one sample of `Wea.directional_irradiance` in the isotropic branch,
as the tuple (total, direct, diffuse, reflected). `sunAltitude` and
`sunAzimuth` are the sun-path provider outputs in degrees at the sample
datetime (float outputs, hence rationals, fed to real trigonometry). -/
def dirSampleIso (sunAltitude sunAzimuth : ℚ → ℚ)
    (altitude azimuth ground_reflectance : ℝ) (p : DataPoint × DataPoint) :
    ℝ × ℝ × ℝ × ℝ :=
  let normal := pol2cart (rad azimuth) (rad altitude)
  let alt : ℝ := (sunAltitude p.1.dt : ℚ)
  let sun_vec := pol2cart (rad ((sunAzimuth p.1.dt : ℚ) : ℝ)) (rad alt)
  let vec_angle := vecAngle sun_vec normal
  let dnr : ℝ := (p.1.value : ℚ)
  let dhr : ℝ := (p.2.value : ℚ)
  let srf_dir := if 0 < alt ∧ vec_angle < Real.pi / 2 then
    dnr * Real.cos vec_angle else 0
  let srf_dif := dhr * (Real.sin (rad altitude) / 2 + 0.5)
  let e_glob := dhr + dnr * Real.cos (rad (90 - alt))
  let srf_ref := e_glob * ground_reflectance *
    (0.5 - Real.sin (rad altitude) / 2)
  (srf_dir + srf_dif + srf_ref, srf_dir, srf_dif, srf_ref)

/-- the isotropic branch of `Wea.directional_irradiance`: the per-sample
tuples in series order (the loop zips the two collections). -/
def directionalIso (w : Wea) (sunAltitude sunAzimuth : ℚ → ℚ)
    (altitude azimuth ground_reflectance : ℝ) : List (ℝ × ℝ × ℝ × ℝ) :=
  (w.direct_normal_irradiance.values.zip
    w.diffuse_horizontal_irradiance.values).map
      (dirSampleIso sunAltitude sunAzimuth altitude azimuth
        ground_reflectance)

/-- the horizon-brightening weight the anisotropic branch computes,
literally `max(0.45, 0.55 + (0.437 * cos(a)) + 0.313 * cos(a) * 0.313 *
cos(a))` — note the repeated `0.313 *` factor in the source. -/
def anisoY (c : ℝ) : ℝ :=
  max 0.45 (0.55 + 0.437 * c + 0.313 * c * 0.313 * c)

/-- `Wea.directional_irradiance` with its `isotrophic` flag. In the
anisotropic branch the first processed sample computes the weight `anisoY`
and then evaluates `self.dhr`, an attribute `Wea` does not have, so the
branch raises `AttributeError` for any engine with at least one sample. -/
def directionalIrradiance (w : Wea) (sunAltitude sunAzimuth : ℚ → ℚ)
    (altitude azimuth ground_reflectance : ℝ) (isotrophic : Bool) :
    Except String (List (ℝ × ℝ × ℝ × ℝ)) :=
  if isotrophic then
    .ok (directionalIso w sunAltitude sunAzimuth altitude azimuth
      ground_reflectance)
  else
    match w.direct_normal_irradiance.values.zip
        w.diffuse_horizontal_irradiance.values with
    | [] => .ok []
    | _ :: _ => .error "AttributeError: Wea object has no attribute dhr"

/-- `Wea.global_horizontal_irradiance`: for each sample pair,
`dhr + dnr * sin(radians(sun.altitude))`, the sun queried at the
direct-normal sample datetime. -/
def globalHorizontalIrradiance (w : Wea) (sunAltitude : ℚ → ℚ) : List ℝ :=
  (w.direct_normal_irradiance.values.zip
    w.diffuse_horizontal_irradiance.values).map
      (fun p => ((p.2.value : ℚ) : ℝ) + ((p.1.value : ℚ) : ℝ) *
        Real.sin (rad ((sunAltitude p.1.dt : ℚ) : ℝ)))

/-- `Wea.direct_horizontal_irradiance`: for each direct-normal sample,
`dnr * sin(radians(sun.altitude))`. -/
def directHorizontalIrradiance (w : Wea) (sunAltitude : ℚ → ℚ) : List ℝ :=
  w.direct_normal_irradiance.values.map
    (fun p => ((p.value : ℚ) : ℝ) *
      Real.sin (rad ((sunAltitude p.dt : ℚ) : ℝ)))

end

theorem annualCheck_iff (n t : Nat) (b : Bool) (ht : 0 < t) :
    annualCheck n t b ↔ n = t * hrCount b := by
  unfold annualCheck
  rw [div_eq_iff (show (t : ℚ) ≠ 0 by exact_mod_cast ht.ne')]
  constructor
  · intro h
    have : (n : ℚ) = ((t * hrCount b : Nat) : ℚ) := by push_cast; linarith
    exact_mod_cast this
  · intro h
    subst h
    push_cast
    ring

theorem initTimestep_pos (o : Option Nat) : 0 < initTimestep o := by
  match o with
  | none => decide
  | some 0 => decide
  | some (t + 1) => exact Nat.succ_pos t

theorem init_ok_iff (location : Location) (dni dhi : DataCollection)
    (ts : Option Nat) (leap : Option Bool) (w : Wea) :
    Wea.init location dni dhi ts leap = .ok w ↔
      annualCheck dni.values.length (initTimestep ts) (leap.getD false) ∧
      annualCheck dhi.values.length (initTimestep ts) (leap.getD false) ∧
      w = ⟨location, dni, dhi, initTimestep ts, leap.getD false⟩ := by
  unfold Wea.init setDirectNormal setDiffuseHorizontal
  by_cases h1 : annualCheck dni.values.length (initTimestep ts)
      (leap.getD false)
  · by_cases h2 : annualCheck dhi.values.length (initTimestep ts)
        (leap.getD false)
    · simp [h1, h2, Bind.bind, Except.bind, eq_comm]
    · simp [h1, h2, Bind.bind, Except.bind]
  · simp [h1, Bind.bind, Except.bind]

theorem init_ok_lengthsOk {location : Location} {dni dhi : DataCollection}
    {ts : Option Nat} {leap : Option Bool} {w : Wea}
    (h : Wea.init location dni dhi ts leap = .ok w) : w.lengthsOk := by
  rw [init_ok_iff] at h
  obtain ⟨h1, h2, rfl⟩ := h
  have hpos := initTimestep_pos ts
  exact ⟨(annualCheck_iff _ _ _ hpos).mp h1, (annualCheck_iff _ _ _ hpos).mp h2⟩

theorem fromValues_ok_lengthsOk {location : Location} {dni dhi : List ℚ}
    {timestep : Nat} {is_leap_year : Bool} {w : Wea}
    (h : fromValues location dni dhi timestep is_leap_year = .ok w) :
    w.lengthsOk := by
  unfold fromValues at h
  split at h <;> split at h <;> try split at h
  all_goals first | exact init_ok_lengthsOk h | simp at h

theorem fromFile_ok_lengthsOk {location : Location} {rows : List (Int × Int)}
    {timestep : Nat} {is_leap_year : Bool} {w : Wea}
    (h : fromFile location rows timestep is_leap_year = .ok w) :
    w.lengthsOk :=
  fromValues_ok_lengthsOk h

theorem fromEpwFile_ok_lengthsOk {location : Location}
    {epwDni epwDhi : DataCollection}
    {interp : DataCollection → Nat → List DataPoint}
    {sunAltitude : ℚ → ℚ} {timestep : Nat} {w : Wea}
    (h : fromEpwFile location epwDni epwDhi interp sunAltitude timestep =
      .ok w) : w.lengthsOk := by
  unfold fromEpwFile at h
  split at h
  · exact init_ok_lengthsOk h
  · exact init_ok_lengthsOk h

theorem fromAshraeRevisedClearSky_ok_lengthsOk {location : Location}
    {monthly_tau_beam monthly_tau_diffuse : List ℚ}
    {model : List ℚ → ℚ → ℚ → List ℚ × List ℚ}
    {sunAltitude : ℚ → ℚ} {sunMonth : ℚ → Nat}
    {timestep : Nat} {is_leap_year : Bool} {w : Wea}
    (h : fromAshraeRevisedClearSky location monthly_tau_beam
      monthly_tau_diffuse model sunAltitude sunMonth timestep is_leap_year =
      .ok w) : w.lengthsOk :=
  init_ok_lengthsOk h

theorem fromAshraeClearSky_ok_lengthsOk {location : Location}
    {sky_clearness : ℚ} {model : List ℚ → Nat → ℚ → List ℚ × List ℚ}
    {sunAltitude : ℚ → ℚ} {sunMonth : ℚ → Nat}
    {timestep : Nat} {is_leap_year : Bool} {w : Wea}
    (h : fromAshraeClearSky location sky_clearness model sunAltitude
      sunMonth timestep is_leap_year = .ok w) : w.lengthsOk :=
  init_ok_lengthsOk h

theorem fromStatFile_ok_lengthsOk {location : Location}
    {monthly_tau_beam monthly_tau_diffuse : List (Option ℚ)}
    {model : List ℚ → ℚ → ℚ → List ℚ × List ℚ}
    {sunAltitude : ℚ → ℚ} {sunMonth : ℚ → Nat}
    {timestep : Nat} {is_leap_year : Bool} {w : Wea}
    (h : fromStatFile location monthly_tau_beam monthly_tau_diffuse model
      sunAltitude sunMonth timestep is_leap_year = .ok w) : w.lengthsOk := by
  unfold fromStatFile at h
  cases hb : checkMissing monthly_tau_beam "monthly_tau_beam" with
  | error e => simp [hb, Bind.bind, Except.bind] at h
  | ok u =>
    cases hd : checkMissing monthly_tau_diffuse "monthly_tau_diffuse" with
    | error e => simp [hb, hd, Bind.bind, Except.bind] at h
    | ok v =>
      simp only [hb, hd, Bind.bind, Except.bind] at h
      exact fromAshraeRevisedClearSky_ok_lengthsOk h

theorem fromZhangHuangSolar_ok_lengthsOk {location : Location}
    {cloud_cover relative_humidity dry_bulb_temperature wind_speed : List ℚ}
    {atmospheric_pressure : Option (List ℚ)}
    {split : List ℚ → List Nat → List ℚ → List ℚ → List ℚ → List ℚ →
      List ℚ → List ℚ → Bool → List ℚ × List ℚ}
    {sunAltitude : ℚ → ℚ} {sunDoy : ℚ → Nat}
    {timestep : Nat} {is_leap_year : Bool} {use_disc : Bool} {w : Wea}
    (h : fromZhangHuangSolar location cloud_cover relative_humidity
      dry_bulb_temperature wind_speed atmospheric_pressure split
      sunAltitude sunDoy timestep is_leap_year use_disc = .ok w) :
    w.lengthsOk := by
  unfold fromZhangHuangSolar at h
  split at h
  · simp at h
  · split at h
    · simp at h
    · split at h
      · simp at h
      · exact init_ok_lengthsOk h

theorem setDirectNormal_ok {w : Wea} {d : DataCollection} {w' : Wea}
    (h : setDirectNormal w d = .ok w') :
    w'.direct_normal_irradiance.values.length =
      w'.timestep * hrCount w'.is_leap_year ∧
    w'.diffuse_horizontal_irradiance = w.diffuse_horizontal_irradiance := by
  unfold setDirectNormal at h
  split at h
  case isTrue hc =>
    cases h
    rcases Nat.eq_zero_or_pos w.timestep with h0 | hpos
    · exfalso
      unfold annualCheck at hc
      rw [h0] at hc
      norm_num at hc
      exact absurd hc.symm (by unfold hrCount; split <;> norm_num)
    · exact ⟨(annualCheck_iff _ _ _ hpos).mp hc, rfl⟩
  case isFalse => simp at h

theorem setDiffuseHorizontal_ok {w : Wea} {d : DataCollection} {w' : Wea}
    (h : setDiffuseHorizontal w d = .ok w') :
    w'.diffuse_horizontal_irradiance.values.length =
      w'.timestep * hrCount w'.is_leap_year ∧
    w'.direct_normal_irradiance = w.direct_normal_irradiance := by
  unfold setDiffuseHorizontal at h
  split at h
  case isTrue hc =>
    cases h
    rcases Nat.eq_zero_or_pos w.timestep with h0 | hpos
    · exfalso
      unfold annualCheck at hc
      rw [h0] at hc
      norm_num at hc
      exact absurd hc.symm (by unfold hrCount; split <;> norm_num)
    · exact ⟨(annualCheck_iff _ _ _ hpos).mp hc, rfl⟩
  case isFalse => simp at h

theorem setDirectNormal_error {w : Wea} {d : DataCollection}
    (h : d.values.length ≠ w.timestep * hrCount w.is_leap_year) :
    setDirectNormal w d =
      .error (.assertionError
        "direct_normal_irradiance data must be annual.") := by
  unfold setDirectNormal
  rcases Nat.eq_zero_or_pos w.timestep with h0 | hpos
  · rw [if_neg]
    unfold annualCheck
    rw [h0]
    norm_num
    intro hc
    exact absurd hc.symm (by unfold hrCount; split <;> norm_num)
  · rw [if_neg]
    rw [annualCheck_iff _ _ _ hpos]
    exact h

theorem setDiffuseHorizontal_error {w : Wea} {d : DataCollection}
    (h : d.values.length ≠ w.timestep * hrCount w.is_leap_year) :
    setDiffuseHorizontal w d =
      .error (.assertionError
        "diffuse_horizontal_irradiance data must be annual.") := by
  unfold setDiffuseHorizontal
  rcases Nat.eq_zero_or_pos w.timestep with h0 | hpos
  · rw [if_neg]
    unfold annualCheck
    rw [h0]
    norm_num
    intro hc
    exact absurd hc.symm (by unfold hrCount; split <;> norm_num)
  · rw [if_neg]
    rw [annualCheck_iff _ _ _ hpos]
    exact h

/-- C1: every construction path (`from_values`, `from_file`,
`from_epw_file`, `from_stat_file`, `from_ashrae_revised_clear_sky`,
`from_ashrae_clear_sky`, `from_zhang_huang_solar`) returns an engine whose
two series both have length exactly `timestep * hr_count(is_leap_year)`
(8760 hours, or 8784 in a leap year); an assignment through either
irradiance setter keeps that length when it succeeds, and an assignment
that would violate it fails. -/
theorem C1_annual_length_invariant :
    (∀ (location : Location) (dni dhi : List ℚ) (timestep : Nat)
      (is_leap_year : Bool) (w : Wea),
      fromValues location dni dhi timestep is_leap_year = .ok w →
      w.lengthsOk) ∧
    (∀ (location : Location) (rows : List (Int × Int)) (timestep : Nat)
      (is_leap_year : Bool) (w : Wea),
      fromFile location rows timestep is_leap_year = .ok w → w.lengthsOk) ∧
    (∀ (location : Location) (epwDni epwDhi : DataCollection)
      (interp : DataCollection → Nat → List DataPoint)
      (sunAltitude : ℚ → ℚ) (timestep : Nat) (w : Wea),
      fromEpwFile location epwDni epwDhi interp sunAltitude timestep =
        .ok w → w.lengthsOk) ∧
    (∀ (location : Location)
      (monthly_tau_beam monthly_tau_diffuse : List (Option ℚ))
      (model : List ℚ → ℚ → ℚ → List ℚ × List ℚ)
      (sunAltitude : ℚ → ℚ) (sunMonth : ℚ → Nat)
      (timestep : Nat) (is_leap_year : Bool) (w : Wea),
      fromStatFile location monthly_tau_beam monthly_tau_diffuse model
        sunAltitude sunMonth timestep is_leap_year = .ok w →
      w.lengthsOk) ∧
    (∀ (location : Location) (monthly_tau_beam monthly_tau_diffuse : List ℚ)
      (model : List ℚ → ℚ → ℚ → List ℚ × List ℚ)
      (sunAltitude : ℚ → ℚ) (sunMonth : ℚ → Nat)
      (timestep : Nat) (is_leap_year : Bool) (w : Wea),
      fromAshraeRevisedClearSky location monthly_tau_beam
        monthly_tau_diffuse model sunAltitude sunMonth timestep
        is_leap_year = .ok w → w.lengthsOk) ∧
    (∀ (location : Location) (sky_clearness : ℚ)
      (model : List ℚ → Nat → ℚ → List ℚ × List ℚ)
      (sunAltitude : ℚ → ℚ) (sunMonth : ℚ → Nat)
      (timestep : Nat) (is_leap_year : Bool) (w : Wea),
      fromAshraeClearSky location sky_clearness model sunAltitude sunMonth
        timestep is_leap_year = .ok w → w.lengthsOk) ∧
    (∀ (location : Location)
      (cloud_cover relative_humidity dry_bulb_temperature wind_speed :
        List ℚ)
      (atmospheric_pressure : Option (List ℚ))
      (split : List ℚ → List Nat → List ℚ → List ℚ → List ℚ → List ℚ →
        List ℚ → List ℚ → Bool → List ℚ × List ℚ)
      (sunAltitude : ℚ → ℚ) (sunDoy : ℚ → Nat)
      (timestep : Nat) (is_leap_year : Bool) (use_disc : Bool) (w : Wea),
      fromZhangHuangSolar location cloud_cover relative_humidity
        dry_bulb_temperature wind_speed atmospheric_pressure split
        sunAltitude sunDoy timestep is_leap_year use_disc = .ok w →
      w.lengthsOk) ∧
    (∀ (w : Wea) (d : DataCollection) (w' : Wea),
      setDirectNormal w d = .ok w' →
      w'.direct_normal_irradiance.values.length =
        w'.timestep * hrCount w'.is_leap_year ∧
      w'.diffuse_horizontal_irradiance =
        w.diffuse_horizontal_irradiance) ∧
    (∀ (w : Wea) (d : DataCollection) (w' : Wea),
      setDiffuseHorizontal w d = .ok w' →
      w'.diffuse_horizontal_irradiance.values.length =
        w'.timestep * hrCount w'.is_leap_year ∧
      w'.direct_normal_irradiance = w.direct_normal_irradiance) ∧
    (∀ (w : Wea) (d : DataCollection),
      d.values.length ≠ w.timestep * hrCount w.is_leap_year →
      setDirectNormal w d = .error (.assertionError
        "direct_normal_irradiance data must be annual.")) ∧
    (∀ (w : Wea) (d : DataCollection),
      d.values.length ≠ w.timestep * hrCount w.is_leap_year →
      setDiffuseHorizontal w d = .error (.assertionError
        "diffuse_horizontal_irradiance data must be annual.")) := by
  refine ⟨?_, ?_, ?_, ?_, ?_, ?_, ?_, ?_, ?_, ?_, ?_⟩
  · exact fun _ _ _ _ _ _ h => fromValues_ok_lengthsOk h
  · exact fun _ _ _ _ _ h => fromFile_ok_lengthsOk h
  · exact fun _ _ _ _ _ _ _ h => fromEpwFile_ok_lengthsOk h
  · exact fun _ _ _ _ _ _ _ _ _ h => fromStatFile_ok_lengthsOk h
  · exact fun _ _ _ _ _ _ _ _ _ h => fromAshraeRevisedClearSky_ok_lengthsOk h
  · exact fun _ _ _ _ _ _ _ _ h => fromAshraeClearSky_ok_lengthsOk h
  · exact fun _ _ _ _ _ _ _ _ _ _ _ _ _ h =>
      fromZhangHuangSolar_ok_lengthsOk h
  · exact fun _ _ _ h => setDirectNormal_ok h
  · exact fun _ _ _ h => setDiffuseHorizontal_ok h
  · exact fun _ _ h => setDirectNormal_error h
  · exact fun _ _ h => setDiffuseHorizontal_error h

/-- a concrete location for the witnesses. -/
def locA : Location := ⟨"Somewhere", 0, 0, 0, 0⟩

/-- a concrete annual hourly collection (8760 samples). -/
def dcAnnualA : DataCollection := ⟨List.replicate 8760 ⟨0, 0⟩⟩

/-- a one-sample collection, not annual. -/
def dcShort : DataCollection := ⟨[⟨1, 2⟩]⟩

/-- a concrete valid hourly engine for the witnesses. -/
def wAnnual : Wea := ⟨locA, dcAnnualA, dcAnnualA, 1, false⟩

/-- the triples `from_values` zips for 8760 zero inputs at timestep 1. -/
def fvTriples : List (ℚ × ℚ × ℚ) :=
  (List.replicate 8760 (0 : ℚ)).zip
    ((List.replicate 8760 (0 : ℚ)).zip (getDatetimes 1 false))

/-- the engine `from_values` returns on 8760 zero inputs at timestep 1. -/
def fvWitnessWea : Wea :=
  ⟨locA, ⟨fvTriples.map (fun p => DataPoint.mk p.1 p.2.2)⟩,
    ⟨fvTriples.map (fun p => DataPoint.mk p.2.1 p.2.2)⟩, 1, false⟩

theorem dataCollection_values_mk (l : List DataPoint) :
    (DataCollection.mk l).values = l := rfl

theorem fvZip_length :
    ((List.replicate 8760 (0 : ℚ)).zip
      ((List.replicate 8760 (0 : ℚ)).zip (getDatetimes 1 false))).length =
      8760 := by
  unfold getDatetimes
  simp only [List.length_zip, List.length_replicate, List.length_map,
    List.length_range]
  decide

theorem fromValues_witness_eq :
    fromValues locA (List.replicate 8760 (0 : ℚ))
      (List.replicate 8760 (0 : ℚ)) 1 false = .ok fvWitnessWea := by
  have hc : annualCheck (List.replicate 8760 (0 : ℚ)).length 1 false := by
    simp only [List.length_replicate]
    unfold annualCheck hrCount
    norm_num
  simp only [fromValues]
  rw [if_pos hc, if_pos hc, init_ok_iff]
  refine ⟨?_, ?_, rfl⟩ <;>
    · rw [dataCollection_values_mk, List.length_map, fvZip_length]
      show annualCheck 8760 1 false
      unfold annualCheck hrCount
      norm_num

/-- Witness for C1: `from_values` succeeds on 8760 paired hourly values and
the resulting engine satisfies the length invariant; assigning a one-sample
collection through the direct-normal setter fails. -/
theorem C1_annual_length_invariant_witness :
    fvWitnessWea.lengthsOk ∧
    setDirectNormal wAnnual dcShort = .error (.assertionError
      "direct_normal_irradiance data must be annual.") := by
  obtain ⟨t1, _, _, _, _, _, _, _, _, t10, _⟩ := C1_annual_length_invariant
  refine ⟨t1 locA (List.replicate 8760 (0 : ℚ))
    (List.replicate 8760 (0 : ℚ)) 1 false fvWitnessWea
    fromValues_witness_eq, t10 wAnnual dcShort (by decide)⟩

theorem get?_zip_eq_some {α β : Type} {l1 : List α} {l2 : List β}
    {i : Nat} {a : α} {b : β} :
    (l1.zip l2).get? i = some (a, b) ↔ l1.get? i = some a ∧ l2.get? i = some b := by
  induction l1 generalizing l2 i with
  | nil => simp
  | cons x xs ih =>
    cases l2 with
    | nil => simp
    | cons y ys =>
      cases i with
      | zero => simp [List.zip_cons_cons, Prod.ext_iff, and_assoc]
      | succ n => simpa [List.zip_cons_cons] using ih

/-- C2: in the `from_epw_file` path with a requested timestep greater
than 1, every interpolated sample whose sun altitude (queried at the beam
sample datetime) is not positive is stored as exactly 0 in both series of
the returned engine, regardless of the interpolated values. -/
theorem C2_sun_down_zeroing :
    ∀ (location : Location) (epwDni epwDhi : DataCollection)
      (interp : DataCollection → Nat → List DataPoint)
      (sunAltitude : ℚ → ℚ) (timestep : Nat) (w : Wea),
      timestep ≠ 1 →
      fromEpwFile location epwDni epwDhi interp sunAltitude timestep =
        .ok w →
      ∀ (i : Nat) (b d : DataPoint),
        (interp epwDni timestep).get? i = some b →
        (interp epwDhi timestep).get? i = some d →
        sunAltitude b.dt ≤ 0 →
        w.direct_normal_irradiance.values.get? i = some ⟨0, b.dt⟩ ∧
        w.diffuse_horizontal_irradiance.values.get? i = some ⟨0, d.dt⟩ := by
  intro location epwDni epwDhi interp sunAltitude timestep w hts h i b d
    hb hd hle
  unfold fromEpwFile at h
  rw [if_pos hts, init_ok_iff] at h
  obtain ⟨-, -, rfl⟩ := h
  have hzip : ((interp epwDni timestep).zip (interp epwDhi timestep)).get? i =
      some (b, d) := get?_zip_eq_some.2 ⟨hb, hd⟩
  constructor
  · show (List.map _ _).get? i = _
    rw [List.get?_map, hzip]
    simp [if_neg (not_lt.mpr hle)]
  · show (List.map _ _).get? i = _
    rw [List.get?_map, hzip]
    simp [if_neg (not_lt.mpr hle)]

/-- a concrete stand-in for the external interpolation collaborator,
returning 17520 equal samples (timestep 2). -/
def interpC : DataCollection → Nat → List DataPoint :=
  fun _ _ => List.replicate 17520 ⟨5, 7⟩

/-- a sun-path stand-in whose sun is always below the horizon. -/
def sunAltNeg : ℚ → ℚ := fun _ => -1

/-- the pairs the `from_epw_file` loop zips for the witness input. -/
def epwPairs : List (DataPoint × DataPoint) :=
  (List.replicate 17520 (⟨5, 7⟩ : DataPoint)).zip
    (List.replicate 17520 (⟨5, 7⟩ : DataPoint))

/-- the engine `from_epw_file` returns on the witness input. -/
def epwWitnessWea : Wea :=
  ⟨locA,
    ⟨epwPairs.map (fun p =>
      if sunAltNeg p.1.dt > 0 then p.1 else ⟨0, p.1.dt⟩)⟩,
    ⟨epwPairs.map (fun p =>
      if sunAltNeg p.1.dt > 0 then p.2 else ⟨0, p.2.dt⟩)⟩, 2, false⟩

theorem fromEpw_witness_eq :
    fromEpwFile locA dcAnnualA dcAnnualA interpC sunAltNeg 2 =
      .ok epwWitnessWea := by
  unfold fromEpwFile interpC
  rw [if_pos (by decide : (2 : Nat) ≠ 1), init_ok_iff]
  refine ⟨?_, ?_, rfl⟩ <;>
    · rw [dataCollection_values_mk, List.length_map]
      simp only [List.length_zip, List.length_replicate, min_self]
      show annualCheck 17520 2 false
      unfold annualCheck hrCount
      norm_num

/-- Witness for C2: with a constant negative-altitude sun-path stand-in and
an interpolation stand-in producing constant nonzero samples, the first
stored sample of the returned engine is 0 in both series. -/
theorem C2_sun_down_zeroing_witness :
    epwWitnessWea.direct_normal_irradiance.values.get? 0 =
      some (⟨0, 7⟩ : DataPoint) ∧
    epwWitnessWea.diffuse_horizontal_irradiance.values.get? 0 =
      some (⟨0, 7⟩ : DataPoint) :=
  C2_sun_down_zeroing locA dcAnnualA dcAnnualA interpC sunAltNeg 2
    epwWitnessWea (by decide) fromEpw_witness_eq 0 ⟨5, 7⟩ ⟨5, 7⟩
    (by decide) (by decide) (by decide)

theorem get?_replicate {α : Type} (a : α) (n i : Nat) (h : i < n) :
    (List.replicate n a).get? i = some a := by
  induction n generalizing i with
  | zero => omega
  | succ m ih =>
    cases i with
    | zero => rfl
    | succ j => exact ih j (by omega)

theorem zhDryBulbT3_get? (dbt : List ℚ) (timestep n count : Nat)
    (h3 : 3 * timestep ≤ dbt.length) (hcn : count < n)
    (hcl : count < dbt.length) :
    (zhDryBulbT3 dbt timestep n).get? count =
      if count < 3 * timestep then
        dbt.get? (dbt.length - 3 * timestep + count)
      else dbt.get? (count - 3 * timestep) := by
  unfold zhDryBulbT3
  rw [List.get?_map, List.get?_range hcn]
  simp only [Option.map_some']
  unfold pyListGet
  by_cases hc : count < 3 * timestep
  · rw [if_neg (by omega), if_pos (by omega), if_pos hc]
    have hidx : ((count : Int) - 3 * (timestep : Int) +
        (dbt.length : Int)).toNat = dbt.length - 3 * timestep + count := by
      omega
    rw [hidx]
    cases hx : dbt.get? (dbt.length - 3 * timestep + count) with
    | none =>
      exfalso
      rw [List.get?_eq_none] at hx
      omega
    | some x => rfl
  · rw [if_pos (by omega), if_neg hc]
    have hidx : ((count : Int) - 3 * (timestep : Int)).toNat =
        count - 3 * timestep := by
      omega
    rw [hidx]
    cases hx : dbt.get? (count - 3 * timestep) with
    | none =>
      exfalso
      rw [List.get?_eq_none] at hx
      omega
    | some x => rfl

/-- an annual dry-bulb series that is zero everywhere. -/
def dbtA : List ℚ := List.replicate 8760 0

/-- an annual dry-bulb series equal to `dbtA` everywhere except in its last
three entries. -/
def dbtB : List ℚ := List.replicate 8757 0 ++ [1, 2, 3]

/-- Counterexample for C3: the claim says that for the first `3 * timestep`
samples of the year the Zhang-Huang dry-bulb lookup performs no wrap-around
to the end of the array. But Python negative indexing wraps: two annual
dry-bulb inputs that agree everywhere except in their last three entries
yield different values fed to the regression at the very first sample of
the year, so the lookup does read values from the end of the year. -/
theorem C3_counterexample :
    dbtA.length = dbtB.length ∧
    dbtA.take 8757 = dbtB.take 8757 ∧
    (zhDryBulbT3 dbtA 1 8760).get? 0 ≠ (zhDryBulbT3 dbtB 1 8760).get? 0 := by
  have hlenA : dbtA.length = 8760 := List.length_replicate 8760 0
  have hlenB : dbtB.length = 8760 := by
    unfold dbtB
    rw [List.length_append, List.length_replicate]
    rfl
  have hgetA : (zhDryBulbT3 dbtA 1 8760).get? 0 = some 0 := by
    rw [zhDryBulbT3_get? dbtA 1 8760 0 (by omega) (by omega) (by omega),
      if_pos (by omega), hlenA]
    show dbtA.get? 8757 = some 0
    exact get?_replicate 0 8760 8757 (by omega)
  have hgetB : (zhDryBulbT3 dbtB 1 8760).get? 0 = some 1 := by
    rw [zhDryBulbT3_get? dbtB 1 8760 0 (by omega) (by omega) (by omega),
      if_pos (by omega), hlenB]
    show dbtB.get? 8757 = some 1
    unfold dbtB
    rw [List.get?_append_right (by rw [List.length_replicate]),
      List.length_replicate]
    rfl
  refine ⟨by rw [hlenA, hlenB], ?_, ?_⟩
  · have hA : dbtA.take 8757 = List.replicate 8757 (0 : ℚ) := by
      unfold dbtA
      rw [List.take_replicate]
      rfl
    have hB : dbtB.take 8757 = List.replicate 8757 (0 : ℚ) := by
      unfold dbtB
      rw [List.take_left' (List.length_replicate 8757 0)]
    rw [hA, hB]
  · rw [hgetA, hgetB]
    intro hcontra
    exact absurd (Option.some.inj hcontra) (by norm_num)

/-- C3 amended: the dry-bulb temperature fed to the Zhang-Huang regression
at sample `count` is the element `3 * timestep` samples earlier whenever
`count ≥ 3 * timestep`; for the first `3 * timestep` samples Python's
negative indexing wraps around, reading the element
`length - 3 * timestep + count` from the end of the year. -/
theorem C3_three_hour_lookup :
    ∀ (dry_bulb_temperature : List ℚ) (timestep n count : Nat),
      3 * timestep ≤ dry_bulb_temperature.length →
      count < n → count < dry_bulb_temperature.length →
      (zhDryBulbT3 dry_bulb_temperature timestep n).get? count =
        if count < 3 * timestep then
          dry_bulb_temperature.get?
            (dry_bulb_temperature.length - 3 * timestep + count)
        else dry_bulb_temperature.get? (count - 3 * timestep) :=
  fun dbt timestep n count h3 hcn hcl =>
    zhDryBulbT3_get? dbt timestep n count h3 hcn hcl

/-- Witness for C3: on the four-sample series `[10, 20, 30, 40]` with
timestep 1, the value fed at the first sample is 20, the element three
samples before the end of the array. -/
theorem C3_three_hour_lookup_witness :
    (zhDryBulbT3 [10, 20, 30, 40] 1 4).get? 0 = some 20 := by
  rw [C3_three_hour_lookup [10, 20, 30, 40] 1 4 0 (by decide) (by decide)
    (by decide)]
  decide

/-- Counterexample for C4: the claim says the timestep suggestion is added
exactly when the actual length is a multiple of the expected count
`timestep * hour_count`. With timestep 2 and 26280 values, 26280 is not a
multiple of the expected 17520, yet the raised error does carry the
suggestion (to use timestep 3), because the code tests divisibility by
`hr_count` alone. -/
theorem C4_counterexample :
    fromValues locA (List.replicate 26280 0) (List.replicate 26280 0) 2
      false =
      .error (.annualLength 2 17520 "direct normal irradiance" 26280
        (some 3)) ∧
    ¬ (26280 % 17520 = 0) := by
  constructor
  · simp only [fromValues]
    have h1 : ¬ annualCheck (List.replicate 26280 (0 : ℚ)).length 2 false := by
      rw [List.length_replicate]
      unfold annualCheck hrCount
      norm_num
    rw [if_neg h1, List.length_replicate]
    norm_num [hrCount]
  · decide

/-- C4 amended: `from_values` fails with an `AnnualLengthError` whenever
either input length differs from `timestep * hour_count`; the message
states the expected count `timestep * hour_count` and reports the direct
list's length; the timestep suggestion `len / hour_count` is added exactly
when the direct list's length is a multiple of `hour_count` (8760, or 8784
in a leap year), not of the expected count. -/
theorem C4_annual_length_error :
    ∀ (location : Location) (dni dhi : List ℚ) (timestep : Nat)
      (is_leap_year : Bool),
      0 < timestep →
      ¬ (dni.length = timestep * hrCount is_leap_year ∧
        dhi.length = timestep * hrCount is_leap_year) →
      fromValues location dni dhi timestep is_leap_year =
        .error (.annualLength timestep (timestep * hrCount is_leap_year)
          (if dni.length = timestep * hrCount is_leap_year then
            "diffuse_horizontal_irradiance"
          else "direct normal irradiance")
          dni.length
          (if dni.length % hrCount is_leap_year = 0 then
            some (dni.length / hrCount is_leap_year)
          else none)) := by
  intro location dni dhi timestep is_leap_year ht hbad
  simp only [fromValues]
  by_cases h1 : annualCheck dni.length timestep is_leap_year
  · have h1' : dni.length = timestep * hrCount is_leap_year :=
      (annualCheck_iff _ _ _ ht).mp h1
    have h2 : ¬ annualCheck dhi.length timestep is_leap_year := by
      rw [annualCheck_iff _ _ _ ht]
      tauto
    rw [if_pos h1, if_neg h2, if_pos h1']
  · have h1' : ¬ dni.length = timestep * hrCount is_leap_year := by
      rw [← annualCheck_iff _ _ _ ht]
      exact h1
    rw [if_neg h1, if_neg h1']

/-- Witness for C4 amended: 8760 values with timestep 3 raise the error
with expected count 26280 and the suggestion to use timestep 1 (8760 is a
multiple of `hr_count`). -/
theorem C4_annual_length_error_witness :
    fromValues locA (List.replicate 8760 0) (List.replicate 8760 0) 3
      false =
      .error (.annualLength 3 26280 "direct normal irradiance" 8760
        (some 1)) := by
  rw [C4_annual_length_error locA (List.replicate 8760 0)
    (List.replicate 8760 0) 3 false (by norm_num) ?_]
  · rw [List.length_replicate]
    norm_num [hrCount]
  · intro hboth
    have ha := hboth.1
    rw [List.length_replicate] at ha
    unfold hrCount at ha
    norm_num at ha

theorem initTimestep_some_pos {t : Nat} (ht : 0 < t) :
    initTimestep (some t) = t := by
  cases t with
  | zero => omega
  | succ n => rfl

/-- C6: the structured representation round-trips exactly: for any engine
satisfying the construction invariants (positive timestep and annual
lengths, guaranteed on every construction path by C1),
`from_json(to_json(w))` succeeds, returns an engine equal to `w`, and hence
`to_json(from_json(to_json(w))) = to_json(w)`. The Location and Series
payload representations are exact per spec section 6. -/
theorem C6_json_round_trip :
    ∀ w : Wea, 0 < w.timestep → w.lengthsOk →
      Wea.fromJson (Wea.toJson w) = .ok w ∧
      (Wea.fromJson (Wea.toJson w)).map Wea.toJson = .ok (Wea.toJson w) := by
  intro w ht hlen
  have h : Wea.fromJson (Wea.toJson w) = .ok w := by
    show Wea.init w.location w.direct_normal_irradiance
      w.diffuse_horizontal_irradiance (some w.timestep)
      (some w.is_leap_year) = .ok w
    rw [init_ok_iff, initTimestep_some_pos ht, Option.getD_some]
    refine ⟨?_, ?_, rfl⟩
    · rw [annualCheck_iff _ _ _ ht]
      exact hlen.1
    · rw [annualCheck_iff _ _ _ ht]
      exact hlen.2
  refine ⟨h, ?_⟩
  rw [h]
  rfl

/-- Witness for C6: the concrete hourly engine `wAnnual` round-trips. -/
theorem C6_json_round_trip_witness :
    Wea.fromJson (Wea.toJson wAnnual) = .ok wAnnual := by
  have hlen : wAnnual.lengthsOk := by
    constructor <;>
      · show (List.replicate 8760 (⟨0, 0⟩ : DataPoint)).length =
          1 * hrCount false
        rw [List.length_replicate]
        decide
  exact (C6_json_round_trip wAnnual (by decide) hlen).1

/-- Counterexample for C7: with the source argument order
`to_unit(values, unit, from_unit)`, `convert([100], 'C', 'F')` converts 100
Fahrenheit to Celsius, giving 340/9 (about 37.8), not 212; and
`convert([0], 'K', 'C')` converts 0 Celsius to Kelvin, giving +273.15, not
-273.15. The two examples of the claim are stated with swapped unit
arguments. -/
theorem C7_counterexample :
    temperatureToUnit [100] "C" "F" = .ok [340 / 9] ∧ (340 / 9 : ℚ) ≠ 212 ∧
    temperatureToUnit [0] "K" "C" = .ok [5463 / 20] ∧
    (5463 / 20 : ℚ) ≠ -(5463 / 20) := by
  refine ⟨?_, by norm_num, ?_, by norm_num⟩
  · show Except.ok [tempFtoC 100] = Except.ok [(340 / 9 : ℚ)]
    norm_num [tempFtoC]
  · show Except.ok [tempCtoK 0] = Except.ok [(5463 / 20 : ℚ)]
    norm_num [tempCtoK]

/-- C7 amended: Celsius to Fahrenheit applies `f = c*9/5+32` to every
value and Celsius to Kelvin adds exactly 273.15; in the source argument
order `to_unit(values, unit, from_unit)` the concrete examples are
`convert([0], 'F', 'C') == [32.0]`, `convert([100], 'F', 'C') == [212.0]`
and `convert([0], 'C', 'K') == [-273.15]`. -/
theorem C7_temperature_conversion :
    (∀ values : List ℚ, temperatureToUnit values "F" "C" =
      .ok (values.map (fun c => c * 9 / 5 + 32))) ∧
    (∀ values : List ℚ, temperatureToUnit values "K" "C" =
      .ok (values.map (fun c => c + 27315 / 100))) ∧
    temperatureToUnit [0] "F" "C" = .ok [32] ∧
    temperatureToUnit [100] "F" "C" = .ok [212] ∧
    temperatureToUnit [0] "C" "K" = .ok [-(27315 / 100)] := by
  refine ⟨fun values => rfl, fun values => rfl, ?_, ?_, ?_⟩
  · show Except.ok [tempCtoF 0] = Except.ok [(32 : ℚ)]
    norm_num [tempCtoF]
  · show Except.ok [tempCtoF 100] = Except.ok [(212 : ℚ)]
    norm_num [tempCtoF]
  · show Except.ok [tempKtoC 0] = Except.ok [(-(27315 / 100) : ℚ)]
    norm_num [tempKtoC]

theorem pyListGet_replicate_none {i : Int} (hi : 0 ≤ i)
    (hge : 8760 ≤ i.toNat) :
    pyListGet (List.replicate 8760 (⟨0, 0⟩ : DataPoint)) i = none := by
  unfold pyListGet
  rw [if_pos hi]
  exact List.get?_eq_none.2 (by rw [List.length_replicate]; exact hge)

theorem pyListGet_replicate_some {i : Int} (hi : 0 ≤ i)
    (hlt : i.toNat < 8760) :
    pyListGet (List.replicate 8760 (⟨0, 0⟩ : DataPoint)) i =
      some ⟨0, 0⟩ := by
  unfold pyListGet
  rw [if_pos hi]
  exact get?_replicate _ _ _ hlt

theorem getIrr_wAnnual_9000 :
    getIrradianceValuesForHoy wAnnual 9000 = none := by
  simp only [getIrradianceValuesForHoy]
  have hc : pyInt ((9000 : ℚ) * (wAnnual.timestep : ℚ)) = 9000 := by
    show pyInt ((9000 : ℚ) * ((1 : ℕ) : ℚ)) = 9000
    unfold pyInt
    rw [if_pos (by norm_num)]
    norm_num
  rw [hc,
    show wAnnual.direct_normal_irradiance.values =
      List.replicate 8760 (⟨0, 0⟩ : DataPoint) from rfl,
    pyListGet_replicate_none (by norm_num) (by norm_num)]

theorem getIrr_wAnnual_0 :
    getIrradianceValuesForHoy wAnnual 0 = some (⟨0, 0⟩, ⟨0, 0⟩) := by
  simp only [getIrradianceValuesForHoy]
  have hc : pyInt ((0 : ℚ) * (wAnnual.timestep : ℚ)) = 0 := by
    show pyInt ((0 : ℚ) * ((1 : ℕ) : ℚ)) = 0
    unfold pyInt
    rw [if_pos (by norm_num)]
    norm_num
  rw [hc,
    show wAnnual.direct_normal_irradiance.values =
      List.replicate 8760 (⟨0, 0⟩ : DataPoint) from rfl,
    show wAnnual.diffuse_horizontal_irradiance.values =
      List.replicate 8760 (⟨0, 0⟩ : DataPoint) from rfl,
    pyListGet_replicate_some (by norm_num) (by norm_num)]

theorem getIrr_wAnnual_1 :
    getIrradianceValuesForHoy wAnnual 1 = some (⟨0, 0⟩, ⟨0, 0⟩) := by
  simp only [getIrradianceValuesForHoy]
  have hc : pyInt ((1 : ℚ) * (wAnnual.timestep : ℚ)) = 1 := by
    show pyInt ((1 : ℚ) * ((1 : ℕ) : ℚ)) = 1
    unfold pyInt
    rw [if_pos (by norm_num)]
    norm_num
  rw [hc,
    show wAnnual.direct_normal_irradiance.values =
      List.replicate 8760 (⟨0, 0⟩ : DataPoint) from rfl,
    show wAnnual.diffuse_horizontal_irradiance.values =
      List.replicate 8760 (⟨0, 0⟩ : DataPoint) from rfl,
    pyListGet_replicate_some (by norm_num) (by norm_num)]

/-- C9 is a code bug: the subset-mode write loop is meant to skip a
requested hour of year with no sample, printing a warning, and to finish
the write. It does so when an earlier hour already succeeded, but when the
very first requested hour is missing the warning references the loop
variable `dt` before any assignment, so the operation dies with a
`NameError` instead of warning and continuing. On the 8760-sample hourly
engine `wAnnual`, requesting only hour 9000 (which has no sample) fails,
while requesting hours 0, 9000, 1 warns once, skips hour 9000 and produces
the two remaining lines. -/
theorem C9_write_subset_code_bug :
    weaWriteLines wAnnual (some [9000]) =
      .error "NameError: name dt is not defined" ∧
    weaWriteLines wAnnual (some [0, 9000, 1]) =
      .ok ([(0, 0, 0), (0, 0, 0)], [0]) := by
  constructor
  · show writeSubsetLoop wAnnual [9000] none =
      .error "NameError: name dt is not defined"
    simp only [writeSubsetLoop, getIrr_wAnnual_9000]
  · show writeSubsetLoop wAnnual [0, 9000, 1] none =
      .ok ([(0, 0, 0), (0, 0, 0)], [0])
    simp only [writeSubsetLoop, getIrr_wAnnual_9000, getIrr_wAnnual_0,
      getIrr_wAnnual_1, Except.map]

theorem find?_eq_none_of_not_contains {α : Type} {d : PyDict α} {k : String}
    (h : pyDictContains d k = false) :
    d.find? (fun e => e.1 == k) = none := by
  unfold pyDictContains at h
  rw [List.find?_eq_none]
  intro x hx
  rw [List.any_eq_false] at h
  exact h x hx

theorem pyDictLookup_append_new {α : Type} (d : PyDict α) (k : String)
    (e : String × Option α) (h : pyDictContains d k = false)
    (he : e.1 = k) : pyDictLookup (d ++ [e]) k = some e.2 := by
  unfold pyDictLookup
  rw [List.find?_append, find?_eq_none_of_not_contains h]
  simp [List.find?, he]

theorem pyDictLookup_append_found {α : Type} {d : PyDict α} {k : String}
    {v : Option α} (h : pyDictLookup d k = some v)
    (e : String × Option α) : pyDictLookup (d ++ [e]) k = some v := by
  unfold pyDictLookup at h ⊢
  rw [List.find?_append]
  cases hf : d.find? (fun e => e.1 == k) with
  | none => rw [hf] at h; simp at h
  | some x =>
    rw [hf] at h
    simpa using h

theorem pyDictContains_append_single {α : Type} (d : PyDict α)
    (e : String × Option α) (k : String) :
    pyDictContains (d ++ [e]) k = (pyDictContains d k || (e.1 == k)) := by
  unfold pyDictContains
  rw [List.any_append]
  simp [List.any]

theorem insertNoneDefaults_preserves {α : Type} (keys : List String)
    {d : PyDict α} {k : String} {v : Option α}
    (h : pyDictLookup d k = some v) :
    pyDictLookup (insertNoneDefaults keys d) k = some v := by
  induction keys generalizing d with
  | nil => exact h
  | cons k0 rest ih =>
    show pyDictLookup (insertNoneDefaults rest
      (if pyDictContains d k0 = true then d else pyDictSet d k0 none)) k =
      some v
    by_cases h0 : pyDictContains d k0 = true
    · rw [if_pos h0]
      exact ih h
    · rw [if_neg h0]
      apply ih
      unfold pyDictSet
      rw [if_neg h0]
      exact pyDictLookup_append_found h _

theorem insertNoneDefaults_inserts {α : Type} (keys : List String)
    {d : PyDict α} {k : String} (hk : k ∈ keys)
    (habs : pyDictContains d k = false) :
    pyDictLookup (insertNoneDefaults keys d) k = some none := by
  induction keys generalizing d with
  | nil => cases hk
  | cons k0 rest ih =>
    show pyDictLookup (insertNoneDefaults rest
      (if pyDictContains d k0 = true then d else pyDictSet d k0 none)) k =
      some none
    by_cases hk0 : k = k0
    · subst hk0
      rw [if_neg (by rw [habs]; simp)]
      apply insertNoneDefaults_preserves
      unfold pyDictSet
      rw [if_neg (by rw [habs]; simp)]
      exact pyDictLookup_append_new d k (k, none) habs rfl
    · have hk' : k ∈ rest := by
        cases hk with
        | head => exact absurd rfl hk0
        | tail _ htl => exact htl
      by_cases h0 : pyDictContains d k0 = true
      · rw [if_pos h0]
        exact ih hk' habs
      · rw [if_neg h0]
        apply ih hk'
        unfold pyDictSet
        rw [if_neg h0, pyDictContains_append_single, habs]
        simp
        exact fun hc => hk0 hc.symm

/-- C10: `Wea.from_json` and `Header.from_json` mutate the dictionary
passed by the caller: after the required keys are asserted present,
`Wea.from_json` inserts every absent optional key (`timestep`,
`is_leap_year`) into the caller's dictionary with value `None`, and
`Header.from_json` does the same for its four keys (`data_type`, `unit`,
`analysis_period`, `metadata`), with no required-key check. The in-place
mutation is modelled by the returned dictionary of the two effect
functions. -/
theorem C10_from_json_dict_mutation :
    (∀ (α : Type) (d : PyDict α),
      requiredWeaKeys.all (fun k => pyDictContains d k) = true →
      weaFromJsonDictEffect d =
        .ok (insertNoneDefaults optionalWeaKeys d)) ∧
    (∀ (α : Type) (d : PyDict α) (k : String),
      k ∈ optionalWeaKeys → pyDictContains d k = false →
      ∀ d', weaFromJsonDictEffect d = .ok d' →
        pyDictLookup d' k = some none) ∧
    (∀ (α : Type) (d : PyDict α) (k : String),
      k ∈ headerJsonKeys → pyDictContains d k = false →
      pyDictLookup (headerFromJsonDictEffect d) k = some none) := by
  have heffect : ∀ (α : Type) (d : PyDict α),
      requiredWeaKeys.all (fun k => pyDictContains d k) = true →
      weaFromJsonDictEffect d =
        .ok (insertNoneDefaults optionalWeaKeys d) := by
    intro α d h
    unfold weaFromJsonDictEffect
    rw [if_pos h]
  refine ⟨heffect, ?_, ?_⟩
  · intro α d k hk habs d' hd'
    unfold weaFromJsonDictEffect at hd'
    by_cases hreq : requiredWeaKeys.all (fun k => pyDictContains d k) = true
    · rw [if_pos hreq] at hd'
      cases hd'
      exact insertNoneDefaults_inserts optionalWeaKeys hk habs
    · rw [if_neg hreq] at hd'
      cases hd'
  · intro α d k hk habs
    exact insertNoneDefaults_inserts headerJsonKeys hk habs

/-- a dictionary holding exactly the three required keys of
`Wea.from_json`. -/
def dReq : PyDict Nat :=
  [("location", some 1), ("direct_normal_irradiance", some 2),
    ("diffuse_horizontal_irradiance", some 3)]

/-- Witness for C10: on a dictionary holding only the three required keys,
`Wea.from_json` succeeds and both optional keys end up present in the
caller's dictionary with value `None`; `Header.from_json` inserts
`data_type` into an empty dictionary with value `None`. -/
theorem C10_from_json_dict_mutation_witness :
    weaFromJsonDictEffect dReq =
      .ok (insertNoneDefaults optionalWeaKeys dReq) ∧
    pyDictLookup (insertNoneDefaults optionalWeaKeys dReq) "timestep" =
      some none ∧
    pyDictLookup (insertNoneDefaults optionalWeaKeys dReq) "is_leap_year" =
      some none ∧
    pyDictLookup (headerFromJsonDictEffect ([] : PyDict Nat)) "data_type" =
      some none := by
  obtain ⟨t1, t2, t3⟩ := C10_from_json_dict_mutation
  have h1 := t1 Nat dReq (by decide)
  refine ⟨h1, t2 Nat dReq "timestep" (by decide) (by decide) _ h1,
    t2 Nat dReq "is_leap_year" (by decide) (by decide) _ h1,
    t3 Nat [] "data_type" (by decide) (by decide)⟩

theorem rad_ninety : rad 90 = Real.pi / 2 := by
  unfold rad
  ring

theorem rad_oneEighty : rad 180 = Real.pi := by
  unfold rad
  ring

theorem normal_up : pol2cart (rad 180) (rad 90) = (0, 0, 1) := by
  unfold pol2cart
  rw [rad_ninety, rad_oneEighty, Real.sin_pi, Real.cos_pi,
    Real.sin_pi_div_two, Real.cos_pi_div_two]
  norm_num

theorem pol2cart_norm (phi theta : ℝ) :
    Real.sqrt ((pol2cart phi theta).1 ^ 2 + (pol2cart phi theta).2.1 ^ 2 +
      (pol2cart phi theta).2.2 ^ 2) = 1 := by
  unfold pol2cart
  simp only
  have h : (Real.sin phi * Real.cos theta) ^ 2 +
      (Real.cos phi * Real.cos theta) ^ 2 + Real.sin theta ^ 2 = 1 := by
    have h1 := Real.sin_sq_add_cos_sq phi
    have h2 := Real.sin_sq_add_cos_sq theta
    nlinarith [h1, h2]
  rw [h, Real.sqrt_one]

theorem vecAngle_up (phi theta : ℝ) :
    vecAngle (pol2cart phi theta) (0, 0, 1) =
      Real.arccos (Real.sin theta) := by
  unfold vecAngle
  rw [pol2cart_norm]
  unfold pol2cart
  norm_num

theorem dirSampleIso_reflected (sunAltitude sunAzimuth : ℚ → ℚ) (gr : ℝ)
    (p : DataPoint × DataPoint) :
    (dirSampleIso sunAltitude sunAzimuth 90 180 gr p).2.2.2 = 0 := by
  simp only [dirSampleIso]
  rw [rad_ninety, Real.sin_pi_div_two]
  norm_num

theorem dirSampleIso_up (sunAltitude sunAzimuth : ℚ → ℚ) (gr : ℝ)
    (p : DataPoint × DataPoint) (h0 : 0 < sunAltitude p.1.dt)
    (h180 : sunAltitude p.1.dt < 180) :
    (dirSampleIso sunAltitude sunAzimuth 90 180 gr p).1 =
      ((p.2.value : ℚ) : ℝ) + ((p.1.value : ℚ) : ℝ) *
        Real.sin (rad ((sunAltitude p.1.dt : ℚ) : ℝ)) ∧
    (dirSampleIso sunAltitude sunAzimuth 90 180 gr p).2.1 =
      ((p.1.value : ℚ) : ℝ) *
        Real.sin (rad ((sunAltitude p.1.dt : ℚ) : ℝ)) := by
  have h0r : (0 : ℝ) < ((sunAltitude p.1.dt : ℚ) : ℝ) := by
    exact_mod_cast h0
  have h180r : ((sunAltitude p.1.dt : ℚ) : ℝ) < 180 := by
    exact_mod_cast h180
  have hpi := Real.pi_pos
  have hradpos : 0 < rad ((sunAltitude p.1.dt : ℚ) : ℝ) := by
    unfold rad
    nlinarith
  have hradlt : rad ((sunAltitude p.1.dt : ℚ) : ℝ) < Real.pi := by
    unfold rad
    nlinarith
  have hsin : 0 < Real.sin (rad ((sunAltitude p.1.dt : ℚ) : ℝ)) :=
    Real.sin_pos_of_pos_of_lt_pi hradpos hradlt
  simp only [dirSampleIso]
  rw [normal_up, vecAngle_up]
  rw [if_pos ⟨h0r, Real.arccos_lt_pi_div_two.mpr hsin⟩]
  rw [Real.cos_arccos (Real.neg_one_le_sin _) (Real.sin_le_one _)]
  rw [rad_ninety, Real.sin_pi_div_two]
  constructor
  · ring
  · rfl

theorem dirSampleIso_down (sunAltitude sunAzimuth : ℚ → ℚ) (gr : ℝ)
    (p : DataPoint × DataPoint) (hle : sunAltitude p.1.dt ≤ 0) :
    (dirSampleIso sunAltitude sunAzimuth 90 180 gr p).1 =
      ((p.2.value : ℚ) : ℝ) := by
  have hler : ((sunAltitude p.1.dt : ℚ) : ℝ) ≤ 0 := by
    exact_mod_cast hle
  simp only [dirSampleIso]
  rw [normal_up, vecAngle_up]
  rw [if_neg (fun hc => absurd hc.1 (not_lt.2 hler))]
  rw [rad_ninety, Real.sin_pi_div_two]
  ring

/-- Counterexample engine: a valid hourly engine with nonzero direct-normal
irradiance at every sample. -/
def wSunny : Wea :=
  ⟨locA, ⟨List.replicate 8760 ⟨100, 0⟩⟩, ⟨List.replicate 8760 ⟨50, 0⟩⟩, 1,
    false⟩

/-- a sun-path stand-in reporting altitude -30 degrees everywhere (night). -/
def sunAltM30 : ℚ → ℚ := fun _ => -30

/-- a sun-path stand-in reporting altitude 30 degrees everywhere (day). -/
def sunAlt30 : ℚ → ℚ := fun _ => 30

/-- a sun-path stand-in reporting azimuth 0 everywhere. -/
def sunAz0 : ℚ → ℚ := fun _ => 0

/-- Counterexample for C5: the claim asserts the identities for any engine
at every timestep. On the valid engine `wSunny` (direct normal 100, diffuse
50 everywhere) with the sun 30 degrees below the horizon, the total
directional irradiance at altitude 90 of the first sample is 50, while
`global_horizontal_irradiance` is 50 + 100*sin(-30 deg) = 0: the series
differ far beyond floating tolerance, because the directional computation
clamps the direct part to 0 when the sun is down while
`global_horizontal_irradiance` does not. -/
theorem C5_counterexample :
    ((directionalIso wSunny sunAltM30 sunAz0 90 180 (2 / 10)).get? 0).map
      (fun s => s.1) ≠
      (globalHorizontalIrradiance wSunny sunAltM30).get? 0 := by
  have hzip : (wSunny.direct_normal_irradiance.values.zip
      wSunny.diffuse_horizontal_irradiance.values).get? 0 =
      some (⟨100, 0⟩, ⟨50, 0⟩) :=
    get?_zip_eq_some.2 ⟨get?_replicate _ _ _ (by norm_num),
      get?_replicate _ _ _ (by norm_num)⟩
  unfold directionalIso globalHorizontalIrradiance
  rw [List.get?_map, List.get?_map, hzip]
  simp only [Option.map_some']
  rw [dirSampleIso_down sunAltM30 sunAz0 (2 / 10) (⟨100, 0⟩, ⟨50, 0⟩)
    (by norm_num [sunAltM30])]
  intro hc
  have h := Option.some.inj hc
  rw [show rad ((sunAltM30 (⟨100, 0⟩ : DataPoint).dt : ℚ) : ℝ) =
      -(Real.pi / 6) by
    unfold sunAltM30 rad
    push_cast
    ring] at h
  rw [Real.sin_neg, Real.sin_pi_div_six] at h
  norm_num at h

/-- C5 amended: for any engine, `directional_irradiance(altitude=90)`
(isotropic, the default) has an all-zero reflected series, and its total
and direct series agree element-wise with `global_horizontal_irradiance`
and `direct_horizontal_irradiance` at every timestep whose sun altitude
lies strictly between 0 and 180 degrees — in particular whenever the sun
is up. At timesteps with sun altitude at or below 0 the total and direct
identities hold only if the direct-normal value there is zero (true for
engines built by the construction paths, which zero night-time samples,
but not for arbitrary series, see the counterexample). -/
theorem C5_directional_identity :
    ∀ (w : Wea) (sunAltitude sunAzimuth : ℚ → ℚ) (gr : ℝ),
      ((directionalIso w sunAltitude sunAzimuth 90 180 gr).map
        (fun s => s.2.2.2) =
        List.replicate (w.direct_normal_irradiance.values.zip
          w.diffuse_horizontal_irradiance.values).length 0) ∧
      (directionalIrradiance w sunAltitude sunAzimuth 90 180 gr true =
        .ok (directionalIso w sunAltitude sunAzimuth 90 180 gr)) ∧
      ∀ (i : Nat) (p : DataPoint × DataPoint),
        (w.direct_normal_irradiance.values.zip
          w.diffuse_horizontal_irradiance.values).get? i = some p →
        0 < sunAltitude p.1.dt → sunAltitude p.1.dt < 180 →
        ((directionalIso w sunAltitude sunAzimuth 90 180 gr).get? i).map
          (fun s => s.1) =
          (globalHorizontalIrradiance w sunAltitude).get? i ∧
        ((directionalIso w sunAltitude sunAzimuth 90 180 gr).get? i).map
          (fun s => s.2.1) =
          (directHorizontalIrradiance w sunAltitude).get? i := by
  intro w sunAltitude sunAzimuth gr
  refine ⟨?_, rfl, ?_⟩
  · rw [List.eq_replicate]
    constructor
    · rw [List.length_map]
      unfold directionalIso
      rw [List.length_map]
    · intro b hb
      rw [List.mem_map] at hb
      obtain ⟨s, hs, rfl⟩ := hb
      unfold directionalIso at hs
      rw [List.mem_map] at hs
      obtain ⟨p, hp, rfl⟩ := hs
      exact dirSampleIso_reflected sunAltitude sunAzimuth gr p
  · intro i p hzip h0 h180
    have hdni : w.direct_normal_irradiance.values.get? i = some p.1 :=
      (get?_zip_eq_some.1 hzip).1
    constructor
    · unfold directionalIso globalHorizontalIrradiance
      rw [List.get?_map, List.get?_map, hzip]
      simp only [Option.map_some']
      rw [(dirSampleIso_up sunAltitude sunAzimuth gr p h0 h180).1]
    · unfold directionalIso directHorizontalIrradiance
      rw [List.get?_map, List.get?_map, hzip, hdni]
      simp only [Option.map_some']
      rw [(dirSampleIso_up sunAltitude sunAzimuth gr p h0 h180).2]

/-- Witness for C5 amended: on the valid engine `wSunny` with the sun at 30
degrees altitude, the total and direct directional series at altitude 90
match the global- and direct-horizontal series at the first sample. -/
theorem C5_directional_identity_witness :
    ((directionalIso wSunny sunAlt30 sunAz0 90 180 (2 / 10)).get? 0).map
      (fun s => s.1) =
      (globalHorizontalIrradiance wSunny sunAlt30).get? 0 ∧
    ((directionalIso wSunny sunAlt30 sunAz0 90 180 (2 / 10)).get? 0).map
      (fun s => s.2.1) =
      (directHorizontalIrradiance wSunny sunAlt30).get? 0 :=
  (C5_directional_identity wSunny sunAlt30 sunAz0 (2 / 10)).2.2 0
    (⟨100, 0⟩, ⟨50, 0⟩)
    (get?_zip_eq_some.2 ⟨get?_replicate _ _ _ (by norm_num),
      get?_replicate _ _ _ (by norm_num)⟩)
    (by norm_num [sunAlt30]) (by norm_num [sunAlt30])

/-- C8 is a code bug: the claim (and the published anisotropic sky model)
weight the diffuse irradiance by
`y = max(0.45, 0.55 + 0.437*cos(a) + 0.313*cos(a)^2)`, but the code
computes `0.313 * cos(a) * 0.313 * cos(a)` (squaring the coefficient along
with the cosine) — at `cos(a) = 1` this gives 1.084969 instead of 1.3 —
and then reads `self.dhr`, an attribute the class does not define, so the
anisotropic branch raises `AttributeError` on any engine with at least one
sample and no weight is ever applied. -/
theorem C8_anisotropic_code_bug :
    anisoY 1 ≠ max 0.45 (0.55 + 0.437 * 1 + 0.313 * 1 ^ 2) ∧
    directionalIrradiance wSunny sunAlt30 sunAz0 45 180 (2 / 10) false =
      .error "AttributeError: Wea object has no attribute dhr" := by
  constructor
  · unfold anisoY
    rw [max_eq_right (by norm_num), max_eq_right (by norm_num)]
    norm_num
  · rfl
